import Mathlib

/-!
# Verification of the browser-storage wrappers

Shallow embedding of the repository's `web_storage.ts`, `indexed-db.ts` and
`indexed_db.ts` modules.

`web_storage.ts` wraps a host `Storage` object (localStorage/sessionStorage).
The wrapper's own state consists of the underlying key/value contents, a
cached key set (`this.keys`, a JS `Set<string>`) and a map from type-tag
strings to reverse-constructor functions (`this.conversionMap`, a JS
`Map<string, FromStorage>`).

The host `Storage` stores only strings; the wrapper always writes
`JSON.stringify(item)` of a `StorageItem` tree and reads it back with
`JSON.parse`.  For trees built from `null`, booleans, finite numbers,
strings, arrays and plain objects — which is exactly what a `StorageItem`
over the `StorageValue` type can contain — `JSON.parse ∘ JSON.stringify` is
the structural identity, so the embedding models the stored string as the
`StorageItem` tree itself.
-/

namespace WebStorageTs

/-- Exceptions that can propagate out of the wrapper's operations. -/
inductive JSError where
  /-- `DOMException` with name `QuotaExceededError`, thrown by `Storage.setItem`. -/
  | quotaExceeded
  /-- `TypeError` from a property access on `null` (the non-null assertion in
  `loadSync` being wrong: `JSON.parse("null").itemType`). -/
  | typeError
  /-- An exception raised by caller-supplied conversion code
  (`intoStorage` / `fromStorage`). -/
  | userCode
deriving DecidableEq

/-- `type Primitive = string | number | boolean | null`.  The `number` case
carries a rational: JSON-serializable JS numbers are finite decimals, and no
wrapper code inspects the numeric value. -/
inductive Prim where
  | str (s : String)
  | num (q : Rat)
  | bool (b : Bool)
  | null
deriving DecidableEq

/-- `type StorageValue = Primitive | PrimitiveRecord | Array<...>`: the JSON
trees the wrapper accepts.  (The TS type forbids arrays directly inside
arrays; this model admits every tree the TS type admits.) -/
inductive StorageValue where
  | prim (p : Prim)
  | record (fields : List (String × StorageValue))
  | array (elems : List StorageValue)

/-- `interface Storable`: `typeName`, the `intoStorage` conversion method and
the `fromStorage` reverse constructor.  Both conversions are caller code and
may throw. -/
inductive Storable where
  | mk (typeName : String)
       (intoStorage : Unit → Except JSError StorageValue)
       (fromStorage : StorageValue → Except JSError Storable)

/-- `Storable.typeName` field accessor. -/
def Storable.typeName : Storable → String
  | .mk t _ _ => t

/-- `Storable.intoStorage` field accessor. -/
def Storable.intoStorage : Storable → Unit → Except JSError StorageValue
  | .mk _ i _ => i

/-- `Storable.fromStorage` field accessor. -/
def Storable.fromStorage : Storable → StorageValue → Except JSError Storable
  | .mk _ _ f => f

/-- `type FromStorage = (value: StorageValue) => Storable` (caller code, may
throw). -/
abbrev FromStorage := StorageValue → Except JSError Storable

/-- `interface StorageItem { itemType: string | null; value: StorageValue }` -/
structure StorageItem where
  itemType : Option String
  value : StorageValue

/-- The argument type of `storeSync<T extends Storable>(key, value: T | StorageValue)`.
`isStorable(value)` discriminates the two arms: a plain `StorageValue` never
has `intoStorage`/`fromStorage` function properties, so the runtime check
agrees with this discriminated union. -/
inductive StoreInput where
  | storable (s : Storable)
  | value (v : StorageValue)

/-- The state of a `WebStorage` instance: the underlying `Storage` contents,
the `conversionMap: Map<string, FromStorage>` and the cached `keys: Set<string>`. -/
structure WebStorage where
  storage : String → Option StorageItem
  conversionMap : String → Option FromStorage
  keys : String → Bool

/-- Host behaviour left open by the `Storage` spec: whether a particular
`setItem` call throws `QuotaExceededError` (a function of the current
contents and the write being attempted).  A throwing `setItem` leaves the
contents unchanged. -/
structure Host where
  setItemFails : (String → Option StorageItem) → String → StorageItem → Bool

/-- `hasKey(key) { return this.keys.has(key); }` -/
def hasKey (st : WebStorage) (key : String) : Bool :=
  st.keys key

/-- `WebStorage.makeStorageItem`:
`itemType = isStorable(value) ? value.typeName : null`,
`value = isStorable(value) ? value.intoStorage() : value`.
Propagates an exception thrown by the caller's `intoStorage`. -/
def makeStorageItem : StoreInput → Except JSError StorageItem
  | .storable s =>
    match s.intoStorage () with
    | .ok v => .ok ⟨some s.typeName, v⟩
    | .error e => .error e
  | .value v => .ok ⟨none, v⟩

/-- `Storage.setItem(key, stringified)`: either throws `QuotaExceededError`
leaving the contents unchanged, or updates the key. -/
def setItem (h : Host) (contents : String → Option StorageItem) (key : String)
    (item : StorageItem) : Except JSError (String → Option StorageItem) :=
  if h.setItemFails contents key item then .error .quotaExceeded
  else .ok (fun k => if k = key then some item else contents k)

/-- The conversion map after the last statement of `storeSync`:
`if (isStorable(value)) this.conversionMap.set(value.typeName, value.fromStorage);`. -/
def storeConversionMap (st : WebStorage) (value : StoreInput) : String → Option FromStorage :=
  match value with
  | .storable s =>
    fun t => if t = s.typeName then some s.fromStorage else st.conversionMap t
  | .value _ => st.conversionMap

/-- `storeSync(key, value)` body, statement by statement:
`const item = WebStorage.makeStorageItem(value);` (may throw),
`this.storage.setItem(key, JSON.stringify(item));` (may throw),
`this.keys.add(key);`,
`if (isStorable(value)) this.conversionMap.set(value.typeName, value.fromStorage);`.
A throw skips every following statement, so the returned state is the entry
state in the error cases. -/
def storeSync (h : Host) (st : WebStorage) (key : String) (value : StoreInput) :
    WebStorage × Option JSError :=
  match makeStorageItem value with
  | .error e => (st, some e)
  | .ok item =>
    match setItem h st.storage key item with
    | .error e => (st, some e)
    | .ok contents =>
      ({ storage := contents
         keys := fun k => if k = key then true else st.keys k
         conversionMap := storeConversionMap st value }, none)

/-- Return type of `loadSync(key): Storable | StorageValue | null`. -/
inductive LoadResult where
  | null
  | value (v : StorageValue)
  | storable (s : Storable)

/-- `loadSync(key)` body:
`if (!this.hasKey(key)) return null;`
`const stringifiedValue = this.storage.getItem(key)!;`
`const item: StorageItem = JSON.parse(stringifiedValue);`
`if (item.itemType === null) return item.value;`
`const fromStorage = this.conversionMap.get(item.itemType);`
`return fromStorage ? fromStorage(item.value) : item.value;`
When the cached key set lies (`hasKey` true, key absent from storage),
`getItem` returns `null`, `JSON.parse` yields `null`, and the `.itemType`
access throws a `TypeError`. -/
def loadSync (st : WebStorage) (key : String) : Except JSError LoadResult :=
  if hasKey st key = false then .ok .null
  else
    match st.storage key with
    | none => .error .typeError
    | some item =>
      match item.itemType with
      | none => .ok (.value item.value)
      | some t =>
        match st.conversionMap t with
        | some f =>
          match f item.value with
          | .ok s => .ok (.storable s)
          | .error e => .error e
        | none => .ok (.value item.value)

/-- `removeItemSync(key)`:
`this.storage.removeItem(key); this.keys.delete(key);`
(`Storage.removeItem` never throws). -/
def removeItemSync (st : WebStorage) (key : String) : WebStorage :=
  { st with
    storage := fun k => if k = key then none else st.storage k
    keys := fun k => if k = key then false else st.keys k }

/-- `clearSync()`: `this.storage.clear(); this.keys.clear();` -/
def clearSync (st : WebStorage) : WebStorage :=
  { st with storage := fun _ => none, keys := fun _ => false }

/-- `store(key, value)`: promise executor
`try { this.storeSync(key, value); resolve(); } catch (error) { reject(error); }`.
The pair is the state after the call and the promise settlement. -/
def store (h : Host) (st : WebStorage) (key : String) (value : StoreInput) :
    WebStorage × Except JSError Unit :=
  match storeSync h st key value with
  | (st1, none) => (st1, .ok ())
  | (st1, some e) => (st1, .error e)

/-- `load(key)`: promise executor
`try { const value = this.loadSync(key); resolve(value); } catch (error) { reject(error); }`.
`loadSync` does not mutate the instance, so only the settlement is returned. -/
def load (st : WebStorage) (key : String) : Except JSError LoadResult :=
  match loadSync st key with
  | .ok v => .ok v
  | .error e => .error e

/-- `removeItem(key)`: promise executor
`this.removeItemSync(key); resolve();` (nothing in it can throw). -/
def removeItem (st : WebStorage) (key : String) : WebStorage × Except JSError Unit :=
  (removeItemSync st key, .ok ())

/-- `clear()`: promise executor `this.clearSync(); resolve();`. -/
def clear (st : WebStorage) : WebStorage × Except JSError Unit :=
  (clearSync st, .ok ())

/-- The bookkeeping invariant: the cached key set mirrors the keys present in
the underlying storage. -/
def keysMirrorStorage (st : WebStorage) : Prop :=
  ∀ k, st.keys k = (st.storage k).isSome

/-- A host on which `setItem` always succeeds. -/
def hostOk : Host := ⟨fun _ _ _ => false⟩

/-- A host on which `setItem` always throws `QuotaExceededError`. -/
def hostFull : Host := ⟨fun _ _ _ => true⟩

/-- A fresh instance over an empty `Storage`. -/
def emptyInstance : WebStorage :=
  ⟨fun _ => none, fun _ => none, fun _ => false⟩

/-- A sample plain storage value. -/
def sampleValue : StorageValue := .record [("name", .prim (.str "John Doe")), ("age", .prim (.num 30))]

/-- A sample `Storable` whose conversions never throw (like the `User` class
of the module's doc example). -/
def sampleStorable : Storable :=
  .mk "User" (fun _ => .ok (.prim (.str "Test Testington")))
    (fun v => .ok (.mk "User" (fun _ => .ok v) (fun _ => .error .userCode)))

/-- A second `Storable` with the same `typeName` but different conversions. -/
def sampleStorable2 : Storable :=
  .mk "User" (fun _ => .ok (.prim (.str "Another User")))
    (fun _ => .ok (.mk "User" (fun _ => .ok (.prim .null)) (fun _ => .error .userCode)))

/-- A `Storable` whose `intoStorage` throws. -/
def throwingStorable : Storable :=
  .mk "Bad" (fun _ => .error .userCode) (fun _ => .error .userCode)

end WebStorageTs

/-!
Embedding of `indexed-db.ts`: the error taxonomy and the promise wiring of
the instance methods `create(schema)` and `open(name, options)`.  Both
methods hand an `IDBOpenDBRequest` a set of event listeners and settle the
returned promise from those listeners; the host decides which events fire
and in which order.  A promise settles with its first `resolve`/`reject`;
later calls are no-ops.
-/

namespace IndexedDbTs

/-- `enum IndexedDBErrorKind` of `indexed-db.ts`. -/
inductive IndexedDBErrorKind where
  | InvalidVersion
  | CreationFailed
  | UpgradeBlocked
deriving DecidableEq

/-- `class IndexedDBError extends Error`: carries an optional `errorKind`. -/
structure IndexedDBError where
  errorKind : Option IndexedDBErrorKind := none
deriving DecidableEq

/-- The `message` getter of `IndexedDBError`: a `switch` on `this.errorKind`. -/
def IndexedDBError.message (e : IndexedDBError) : String :=
  match e.errorKind with
  | some .InvalidVersion => "DB version must be a positive integer."
  | some .CreationFailed => "DB creation failed."
  | some .UpgradeBlocked => "DB upgrade blocked by another connection."
  | none => "Unknown error."

/-- Events an `IDBOpenDBRequest` can fire. -/
inductive DBEvent where
  | upgradeneeded
  | blocked
  | error
  | success
deriving DecidableEq

/-- What the listeners registered by `IndexedDB.open(name, options)` do with
the promise on each event: the optional `onUpgrade` callback cannot settle
(it is not handed `resolve`/`reject`), `blocked` rejects with
`UpgradeBlocked`, no `error` listener is registered, and `success` resolves. -/
def openSettle : DBEvent → Option (Except IndexedDBError Unit)
  | .upgradeneeded => none
  | .blocked => some (.error ⟨some .UpgradeBlocked⟩)
  | .error => none
  | .success => some (.ok ())

/-- What the listeners registered by `IndexedDB.create(schema)` do with the
promise on each event: `upgradeneeded` creates the object stores without
settling, `blocked` rejects with `UpgradeBlocked`, `error` rejects with
`CreationFailed`, and `success` resolves. -/
def createSettle : DBEvent → Option (Except IndexedDBError Unit)
  | .upgradeneeded => none
  | .blocked => some (.error ⟨some .UpgradeBlocked⟩)
  | .error => some (.error ⟨some .CreationFailed⟩)
  | .success => some (.ok ())

/-- The settlement of a promise whose executor reacts to a stream of events:
the first `resolve`/`reject` wins and every later one is a no-op; `none`
means the promise never settles. -/
def promiseOutcome (settle : DBEvent → Option (Except IndexedDBError Unit)) :
    List DBEvent → Option (Except IndexedDBError Unit)
  | [] => none
  | e :: rest =>
    match settle e with
    | some r => some r
    | none => promiseOutcome settle rest

end IndexedDbTs

/-!
Embedding of `indexed_db.ts` (the second, richer IndexedDB wrapper): the
extended error taxonomy, `databaseExists`, and the existence check at the
head of the static method `IndexedDB.open(name)`.  Inside a static method
`this` is the class object itself, whose `name` property is the class's own
name — the string `"IndexedDB"` — so `this.name` there does not refer to the
method's `name` parameter.
-/

namespace IndexedDbU

/-- `enum IndexedDBErrorKind` of `indexed_db.ts`. -/
inductive IndexedDBErrorKind where
  | InvalidVersion
  | CreationFailed
  | OpenFailed
  | DeletionFailed
  | DBExists
  | DBDoesNotExist
  | UpgradeBlocked
deriving DecidableEq

/-- The fields of `IDBDatabaseInfo` used by this module. -/
structure DatabaseInfo where
  name : String
  version : Nat
deriving DecidableEq

/-- `IndexedDB.databaseExists(name)`:
`(await IndexedDB.databases).some((db) => db.name === name)`, with the
origin's database list passed explicitly. -/
def databaseExists (databases : List DatabaseInfo) (name : String) : Bool :=
  databases.any (fun db => db.name == name)

/-- The value of `this.name` inside the static `IndexedDB.open`: the class
object's `name` property, i.e. the class name. -/
def staticThisName : String := "IndexedDB"

/-- Outcome of the existence-check phase of the static `IndexedDB.open`. -/
inductive StaticOpenStep where
  | threw (kind : IndexedDBErrorKind)
  | proceeds (requestedName : String)
deriving DecidableEq

/-- Head of the static `IndexedDB.open(name)`:
`if (!(await IndexedDB.databaseExists(this.name))) throw new IndexedDBError(IndexedDBErrorKind.DBDoesNotExist);`
then `self.indexedDB.open(name)` is issued with the parameter `name`. -/
def openStatic (databases : List DatabaseInfo) (name : String) : StaticOpenStep :=
  if !(databaseExists databases staticThisName) then .threw .DBDoesNotExist
  else .proceeds name

end IndexedDbU

namespace WebStorageTs

/-- A successful `storeSync` call produced its item with `makeStorageItem`,
got a non-throwing `setItem`, and its final state is the entry state with the
key written, the key cached, and (for a `Storable`) the conversion
registered. -/
theorem storeSync_ok_shape (h : Host) (st : WebStorage) (key : String) (value : StoreInput)
    (st1 : WebStorage) (hok : storeSync h st key value = (st1, none)) :
    ∃ item, makeStorageItem value = .ok item ∧
      st1 = { storage := fun k => if k = key then some item else st.storage k
              keys := fun k => if k = key then true else st.keys k
              conversionMap := storeConversionMap st value } := by
  cases hmk : makeStorageItem value with
  | error e => simp [storeSync, hmk] at hok
  | ok item =>
    by_cases hfail : h.setItemFails st.storage key item = true
    · simp [storeSync, setItem, hmk, hfail] at hok
    · simp only [Bool.not_eq_true] at hfail
      simp [storeSync, setItem, hmk, hfail] at hok
      exact ⟨item, rfl, by simpa using hok.symm⟩

/-- A `storeSync` call that throws returns the entry state: every statement
that can throw precedes every statement that mutates the instance. -/
theorem storeSync_throw_state (h : Host) (st st1 : WebStorage) (key : String)
    (value : StoreInput) (e : JSError)
    (herr : storeSync h st key value = (st1, some e)) : st1 = st := by
  cases hmk : makeStorageItem value with
  | error e2 =>
    simp [storeSync, hmk] at herr
    exact herr.1.symm
  | ok item =>
    by_cases hfail : h.setItemFails st.storage key item = true
    · simp [storeSync, setItem, hmk, hfail] at herr
      exact herr.1.symm
    · simp only [Bool.not_eq_true] at hfail
      simp [storeSync, setItem, hmk, hfail] at herr

/-- The state component of the `store` shim is the state `storeSync` leaves. -/
theorem store_fst (h : Host) (st : WebStorage) (key : String) (value : StoreInput) :
    (store h st key value).1 = (storeSync h st key value).1 := by
  unfold store
  rcases hs : storeSync h st key value with ⟨st1, e⟩
  cases e <;> simp

/-- C1: for every key and plain `StorageValue` (not a `Storable`), a
`storeSync` that completes followed by `loadSync` of the same key on the same
instance returns a value equal to the one stored. -/
theorem storeSync_then_loadSync_returns_plain_value
    (h : Host) (st : WebStorage) (key : String) (v : StorageValue) (st1 : WebStorage)
    (hok : storeSync h st key (.value v) = (st1, none)) :
    loadSync st1 key = .ok (.value v) := by
  obtain ⟨item, hmk, hst1⟩ := storeSync_ok_shape h st key (.value v) st1 hok
  have hitem : item = ⟨none, v⟩ := by
    simpa [makeStorageItem] using hmk.symm
  subst hitem hst1
  simp [loadSync, hasKey]

/-- Witness for C1: storing the sample record under `"currentUser"` in a
fresh instance and loading it back returns the record. -/
theorem storeSync_then_loadSync_returns_plain_value_witness :
    loadSync (storeSync hostOk emptyInstance "currentUser" (.value sampleValue)).1 "currentUser"
      = .ok (.value sampleValue) :=
  storeSync_then_loadSync_returns_plain_value hostOk emptyInstance "currentUser" sampleValue
    (storeSync hostOk emptyInstance "currentUser" (.value sampleValue)).1 rfl

/-- C2: a completed `storeSync` of a `Storable` stores `intoStorage()`'s
result tagged with `typeName`, registers `fromStorage` under that type name,
and a subsequent `loadSync` of the key returns the registered conversion
applied to the stored value, i.e. `fromStorage(intoStorage())`. -/
theorem storeSync_storable_tags_registers_and_loadSync_applies
    (h : Host) (st : WebStorage) (key : String) (s : Storable) (v : StorageValue)
    (st1 : WebStorage)
    (hinto : s.intoStorage () = .ok v)
    (hok : storeSync h st key (.storable s) = (st1, none)) :
    st1.storage key = some ⟨some s.typeName, v⟩ ∧
    st1.conversionMap s.typeName = some s.fromStorage ∧
    loadSync st1 key = (s.fromStorage v).map LoadResult.storable := by
  obtain ⟨item, hmk, hst1⟩ := storeSync_ok_shape h st key (.storable s) st1 hok
  have hitem : item = ⟨some s.typeName, v⟩ := by
    simp [makeStorageItem, hinto] at hmk
    exact hmk.symm
  subst hitem hst1
  refine ⟨by simp, by simp [storeConversionMap], ?_⟩
  simp only [loadSync, hasKey]
  cases hfv : s.fromStorage v <;> simp [hfv, Except.map, storeConversionMap]

/-- Witness for C2: storing the sample `Storable` under `"testUser"` in a
fresh instance tags, registers, and round-trips through its conversions. -/
theorem storeSync_storable_tags_registers_and_loadSync_applies_witness :
    (storeSync hostOk emptyInstance "testUser" (.storable sampleStorable)).1.storage "testUser"
        = some ⟨some sampleStorable.typeName, .prim (.str "Test Testington")⟩ ∧
    (storeSync hostOk emptyInstance "testUser" (.storable sampleStorable)).1.conversionMap
        sampleStorable.typeName = some sampleStorable.fromStorage ∧
    loadSync (storeSync hostOk emptyInstance "testUser" (.storable sampleStorable)).1 "testUser"
        = (sampleStorable.fromStorage (.prim (.str "Test Testington"))).map LoadResult.storable :=
  storeSync_storable_tags_registers_and_loadSync_applies hostOk emptyInstance "testUser"
    sampleStorable (.prim (.str "Test Testington"))
    (storeSync hostOk emptyInstance "testUser" (.storable sampleStorable)).1 rfl rfl

/-- C6: last writer wins for both bookkeeping structures: storing twice under
the same key leaves the state observable through `loadSync` of that key
identical to the second store alone; and when two `Storable`s share a
`typeName`, the conversion registered by the later store is the one applied
by subsequent loads of items tagged with that `typeName`. -/
theorem last_writer_wins (h : Host) (st : WebStorage) :
    (∀ key v1 v2 st1 st12 st2,
      storeSync h st key v1 = (st1, none) →
      storeSync h st1 key v2 = (st12, none) →
      storeSync h st key v2 = (st2, none) →
      loadSync st12 key = loadSync st2 key) ∧
    (∀ k1 k2 (s1 s2 : Storable) v1 st1 st12,
      s1.typeName = s2.typeName →
      s1.intoStorage () = .ok v1 →
      k1 ≠ k2 →
      storeSync h st k1 (.storable s1) = (st1, none) →
      storeSync h st1 k2 (.storable s2) = (st12, none) →
      st12.conversionMap s1.typeName = some s2.fromStorage ∧
      loadSync st12 k1 = (s2.fromStorage v1).map LoadResult.storable) := by
  constructor
  · intro key v1 v2 st1 st12 st2 h1 h12 h2
    obtain ⟨item2, hmk2, hst12⟩ := storeSync_ok_shape h st1 key v2 st12 h12
    obtain ⟨item2b, hmk2b, hst2⟩ := storeSync_ok_shape h st key v2 st2 h2
    rw [hmk2] at hmk2b
    injection hmk2b with hitem
    subst hitem hst12 hst2
    cases v2 with
    | value v =>
      have hv : item2 = ⟨none, v⟩ := by
        simpa [makeStorageItem] using hmk2.symm
      subst hv
      simp [loadSync, hasKey, storeConversionMap]
    | storable s2 =>
      obtain ⟨w, hw⟩ : ∃ w, s2.intoStorage () = .ok w := by
        cases hsi : s2.intoStorage () with
        | ok w => exact ⟨w, rfl⟩
        | error e => simp [makeStorageItem, hsi] at hmk2
      have hv : item2 = ⟨some s2.typeName, w⟩ := by
        simp [makeStorageItem, hw] at hmk2
        exact hmk2.symm
      subst hv
      cases hfw : s2.fromStorage w <;>
        simp [loadSync, hasKey, storeConversionMap, hfw]
  · intro k1 k2 s1 s2 v1 st1 st12 htn hinto hk hs1 hs2
    obtain ⟨item1, hmk1, hst1⟩ := storeSync_ok_shape h st k1 (.storable s1) st1 hs1
    obtain ⟨item2, hmk2, hst12⟩ := storeSync_ok_shape h st1 k2 (.storable s2) st12 hs2
    have hv1 : item1 = ⟨some s1.typeName, v1⟩ := by
      simp [makeStorageItem, hinto] at hmk1
      exact hmk1.symm
    subst hv1 hst1 hst12
    have hk1 : ¬(k1 = k2) := hk
    constructor
    · simp [storeConversionMap, htn]
    · cases hfv : s2.fromStorage v1 <;>
        simp [loadSync, hasKey, storeConversionMap, hk1, htn, hfv, Except.map]

/-- Witness for C6: two stores under `"u"` observably equal the second alone,
and the later of two same-named `Storable`s wins the conversion slot. -/
theorem last_writer_wins_witness :
    loadSync (storeSync hostOk
        (storeSync hostOk emptyInstance "u" (.value (.prim (.num 1)))).1
        "u" (.value sampleValue)).1 "u"
      = loadSync (storeSync hostOk emptyInstance "u" (.value sampleValue)).1 "u" ∧
    ((storeSync hostOk
        (storeSync hostOk emptyInstance "a" (.storable sampleStorable)).1
        "b" (.storable sampleStorable2)).1.conversionMap sampleStorable.typeName
      = some sampleStorable2.fromStorage ∧
     loadSync (storeSync hostOk
        (storeSync hostOk emptyInstance "a" (.storable sampleStorable)).1
        "b" (.storable sampleStorable2)).1 "a"
      = (sampleStorable2.fromStorage (.prim (.str "Test Testington"))).map
          LoadResult.storable) :=
  ⟨(last_writer_wins hostOk emptyInstance).1 "u" (.value (.prim (.num 1)))
      (.value sampleValue) _ _ _ rfl rfl rfl,
   (last_writer_wins hostOk emptyInstance).2 "a" "b" sampleStorable sampleStorable2
      (.prim (.str "Test Testington")) _ _ rfl rfl (by decide) rfl rfl⟩

/-- C10: when `storeSync` throws — the caller's `intoStorage` threw or the
underlying `setItem` raised `QuotaExceededError` — the cached key set and the
type-name-to-conversion-function map are exactly as they were before the
call. -/
theorem storeSync_throw_leaves_bookkeeping_unchanged
    (h : Host) (st st1 : WebStorage) (key : String) (value : StoreInput) (e : JSError)
    (herr : storeSync h st key value = (st1, some e)) :
    st1.keys = st.keys ∧ st1.conversionMap = st.conversionMap := by
  rw [storeSync_throw_state h st st1 key value e herr]
  exact ⟨rfl, rfl⟩

/-- C3: whenever the cached key set mirrors the keys present in the
underlying storage, every public mutating operation — `storeSync`,
`removeItemSync`, `clearSync` and their promise-returning variants — leaves a
state in which it still does, including when the operation throws; and under
the invariant `hasKey(k)` is `true` exactly when `k` is present in the
underlying storage. -/
theorem mutating_ops_preserve_key_mirror
    (st : WebStorage) (hinv : keysMirrorStorage st) :
    (∀ h key value, keysMirrorStorage (storeSync h st key value).1) ∧
    (∀ key, keysMirrorStorage (removeItemSync st key)) ∧
    keysMirrorStorage (clearSync st) ∧
    (∀ h key value, keysMirrorStorage (store h st key value).1) ∧
    (∀ key, keysMirrorStorage (removeItem st key).1) ∧
    keysMirrorStorage (clear st).1 ∧
    (∀ key, hasKey st key = (st.storage key).isSome) := by
  have hstore : ∀ h key value, keysMirrorStorage (storeSync h st key value).1 := by
    intro h key value
    rcases hs : storeSync h st key value with ⟨st1, e⟩
    cases e with
    | none =>
      obtain ⟨item, _, hst1⟩ := storeSync_ok_shape h st key value st1 hs
      subst hst1
      intro k
      by_cases hk : k = key <;> simp [hk, hinv k]
    | some e =>
      have := storeSync_throw_state h st st1 key value e hs
      subst this
      exact hinv
  have hremove : ∀ key, keysMirrorStorage (removeItemSync st key) := by
    intro key k
    by_cases hk : k = key <;> simp [removeItemSync, hk, hinv k]
  have hclear : keysMirrorStorage (clearSync st) := by
    intro k
    simp [clearSync]
  refine ⟨hstore, hremove, hclear, ?_, ?_, ?_, ?_⟩
  · intro h key value
    rw [store_fst]
    exact hstore h key value
  · intro key
    exact hremove key
  · exact hclear
  · intro key
    exact hinv key

/-- Witness for C3: the fresh empty instance satisfies the invariant, and so
do the states its operations produce. -/
theorem mutating_ops_preserve_key_mirror_witness :
    keysMirrorStorage (storeSync hostOk emptyInstance "k" (.value sampleValue)).1 ∧
    keysMirrorStorage (removeItemSync emptyInstance "k") ∧
    hasKey emptyInstance "k" = (emptyInstance.storage "k").isSome := by
  have h := mutating_ops_preserve_key_mirror emptyInstance
    (fun k => by simp [emptyInstance])
  exact ⟨h.1 hostOk "k" (.value sampleValue), h.2.1 "k", h.2.2.2.2.2.2 "k"⟩

/-- C4: each promise-returning operation is a pure shim over its synchronous
counterpart: it resolves exactly when the synchronous version returns,
rejects with exactly the exception the synchronous version throws, and leaves
the identical state. -/
theorem promise_variants_are_shims_over_sync
    (h : Host) (st : WebStorage) (key : String) (value : StoreInput) :
    (store h st key value).1 = (storeSync h st key value).1 ∧
    ((store h st key value).2 = .ok () ↔ (storeSync h st key value).2 = none) ∧
    (∀ e, (store h st key value).2 = .error e ↔ (storeSync h st key value).2 = some e) ∧
    load st key = loadSync st key ∧
    removeItem st key = (removeItemSync st key, .ok ()) ∧
    clear st = (clearSync st, .ok ()) := by
  refine ⟨store_fst h st key value, ?_, ?_, ?_, rfl, rfl⟩
  · unfold store
    rcases hs : storeSync h st key value with ⟨st1, e⟩
    cases e <;> simp
  · intro e
    unfold store
    rcases hs : storeSync h st key value with ⟨st1, e1⟩
    cases e1 <;> simp
  · unfold load
    cases hl : loadSync st key <;> simp

/-- Witness for C4: the shim equalities at a concrete call. -/
theorem promise_variants_are_shims_over_sync_witness :
    (store hostOk emptyInstance "k" (.value sampleValue)).1
        = (storeSync hostOk emptyInstance "k" (.value sampleValue)).1 ∧
    load emptyInstance "k" = loadSync emptyInstance "k" ∧
    removeItem emptyInstance "k" = (removeItemSync emptyInstance "k", .ok ()) :=
  ⟨(promise_variants_are_shims_over_sync hostOk emptyInstance "k" (.value sampleValue)).1,
   (promise_variants_are_shims_over_sync hostOk emptyInstance "k" (.value sampleValue)).2.2.2.1,
   (promise_variants_are_shims_over_sync hostOk emptyInstance "k" (.value sampleValue)).2.2.2.2.1⟩

/-- C5: after `removeItemSync(k)` — equivalently after awaiting
`removeItem(k)` — `hasKey(k)` is `false` and `loadSync(k)` returns `null`,
whether or not `k` was present; removing an absent key throws nothing and
changes nothing. -/
theorem removeItemSync_removes_key
    (st : WebStorage) (key : String) :
    hasKey (removeItemSync st key) key = false ∧
    loadSync (removeItemSync st key) key = .ok .null ∧
    removeItem st key = (removeItemSync st key, .ok ()) ∧
    (st.keys key = false → st.storage key = none → removeItemSync st key = st) := by
  refine ⟨by simp [hasKey, removeItemSync], by simp [loadSync, hasKey, removeItemSync], rfl, ?_⟩
  intro hkeys hstorage
  cases st with
  | mk storage conversionMap keys =>
    simp only [removeItemSync, WebStorage.mk.injEq]
    refine ⟨funext fun k => ?_, trivial, funext fun k => ?_⟩
    · by_cases hk : k = key
      · subst hk; simp [hstorage.symm]
      · simp [hk]
    · by_cases hk : k = key
      · subst hk; simp [hkeys.symm]
      · simp [hk]

/-- Witness for C5: removing `"k"` from the fresh empty instance. -/
theorem removeItemSync_removes_key_witness :
    hasKey (removeItemSync emptyInstance "k") "k" = false ∧
    loadSync (removeItemSync emptyInstance "k") "k" = .ok .null ∧
    removeItem emptyInstance "k" = (removeItemSync emptyInstance "k", .ok ()) ∧
    (emptyInstance.keys "k" = false → emptyInstance.storage "k" = none →
      removeItemSync emptyInstance "k" = emptyInstance) :=
  removeItemSync_removes_key emptyInstance "k"

/-- Witness for C10: on a full host, `setItem` throws `QuotaExceededError`
and the fresh instance's bookkeeping is untouched. -/
theorem storeSync_throw_leaves_bookkeeping_unchanged_witness :
    (storeSync hostFull emptyInstance "k" (.value sampleValue)).1.keys = emptyInstance.keys ∧
    (storeSync hostFull emptyInstance "k" (.value sampleValue)).1.conversionMap
      = emptyInstance.conversionMap :=
  storeSync_throw_leaves_bookkeeping_unchanged hostFull emptyInstance
    (storeSync hostFull emptyInstance "k" (.value sampleValue)).1 "k" (.value sampleValue)
    .quotaExceeded rfl

end WebStorageTs

namespace IndexedDbTs

/-- C7: whenever the underlying open request fires a `blocked` event (after
any number of non-settling `upgradeneeded` events), both `IndexedDB.open` and
`IndexedDB.create` reject with an `IndexedDBError` whose `errorKind` is
`UpgradeBlocked`, and — the promise settling once — whatever events the host
fires afterwards cannot re-resolve or retry, so this is the single terminal
outcome. -/
theorem blocked_event_rejects_with_upgradeBlocked
    (pre rest : List DBEvent) (hpre : ∀ e ∈ pre, e = DBEvent.upgradeneeded) :
    promiseOutcome openSettle (pre ++ DBEvent.blocked :: rest)
        = some (.error ⟨some .UpgradeBlocked⟩) ∧
    promiseOutcome createSettle (pre ++ DBEvent.blocked :: rest)
        = some (.error ⟨some .UpgradeBlocked⟩) := by
  induction pre with
  | nil => exact ⟨rfl, rfl⟩
  | cons e es ih =>
    have he : e = DBEvent.upgradeneeded := hpre e (by simp)
    have hes : ∀ x ∈ es, x = DBEvent.upgradeneeded := fun x hx => hpre x (by simp [hx])
    subst he
    simpa [promiseOutcome, openSettle, createSettle] using ih hes

/-- Witness for C7: an upgrade attempt that gets blocked and whose `success`
fires only after the blocking connection would have gone away still rejects
with `UpgradeBlocked`. -/
theorem blocked_event_rejects_with_upgradeBlocked_witness :
    promiseOutcome openSettle
        [DBEvent.upgradeneeded, DBEvent.blocked, DBEvent.success]
        = some (.error ⟨some .UpgradeBlocked⟩) ∧
    promiseOutcome createSettle
        [DBEvent.upgradeneeded, DBEvent.blocked, DBEvent.success]
        = some (.error ⟨some .UpgradeBlocked⟩) :=
  blocked_event_rejects_with_upgradeBlocked [DBEvent.upgradeneeded] [DBEvent.success]
    (by decide)

/-- C8: every `IndexedDBError` carries an optional `errorKind` from the
closed enum `IndexedDBErrorKind`, and its `message` is a total function of
that kind, with exactly the four documented strings. -/
theorem indexedDBError_message_is_function_of_kind :
    (∀ e1 e2 : IndexedDBError, e1.errorKind = e2.errorKind → e1.message = e2.message) ∧
    (∀ e : IndexedDBError, e.errorKind = some .InvalidVersion →
      e.message = "DB version must be a positive integer.") ∧
    (∀ e : IndexedDBError, e.errorKind = some .CreationFailed →
      e.message = "DB creation failed.") ∧
    (∀ e : IndexedDBError, e.errorKind = some .UpgradeBlocked →
      e.message = "DB upgrade blocked by another connection.") ∧
    (∀ e : IndexedDBError, e.errorKind = none → e.message = "Unknown error.") := by
  refine ⟨?_, ?_, ?_, ?_, ?_⟩ <;> intro e <;>
    first
      | (intro e2 hk; simp only [IndexedDBError.message, hk])
      | (intro hk; simp only [IndexedDBError.message, hk])

/-- Witness for C8: the message of each concretely built error. -/
theorem indexedDBError_message_is_function_of_kind_witness :
    IndexedDBError.message ⟨some .InvalidVersion⟩ = "DB version must be a positive integer." ∧
    IndexedDBError.message ⟨some .CreationFailed⟩ = "DB creation failed." ∧
    IndexedDBError.message ⟨some .UpgradeBlocked⟩ = "DB upgrade blocked by another connection." ∧
    IndexedDBError.message ⟨none⟩ = "Unknown error." :=
  ⟨indexedDBError_message_is_function_of_kind.2.1 ⟨some .InvalidVersion⟩ rfl,
   indexedDBError_message_is_function_of_kind.2.2.1 ⟨some .CreationFailed⟩ rfl,
   indexedDBError_message_is_function_of_kind.2.2.2.1 ⟨some .UpgradeBlocked⟩ rfl,
   indexedDBError_message_is_function_of_kind.2.2.2.2 ⟨none⟩ rfl⟩

end IndexedDbTs

namespace IndexedDbU

/-- C9 evidence: the existence check at the head of the static
`IndexedDB.open(name)` tests `databaseExists(this.name)`, and in a static
method `this.name` is the class name `"IndexedDB"`, not the parameter.  With
the origin holding exactly a database named `"myDB"`, `open("myDB")` throws
`DBDoesNotExist` even though `"myDB"` exists; with the origin holding exactly
a database named `"IndexedDB"`, `open("missing")` passes the check and
proceeds even though no database named `"missing"` exists. -/
theorem openStatic_checks_class_name_not_parameter :
    databaseExists [⟨"myDB", 1⟩] "myDB" = true ∧
    openStatic [⟨"myDB", 1⟩] "myDB" = .threw .DBDoesNotExist ∧
    databaseExists [⟨"IndexedDB", 1⟩] "missing" = false ∧
    openStatic [⟨"IndexedDB", 1⟩] "missing" = .proceeds "missing" := by
  refine ⟨by decide, by decide, by decide, by decide⟩

end IndexedDbU
